import Mathlib

/-!
# Verification of the zupp.app authentication and access-control core

Shallow embedding of the authentication subsystem of the zupp.app backend:
the session auth gate (`src/middleware/auth.ts`), the role gate
(`requireRole` and its presets), the API-key gate
(`src/middleware/apiKey.ts`), the API-key routes
(`src/routes/apiKeys.ts`: `generateApiKey`, regenerate), and the
register/login/me auth endpoints.

Timestamps are modelled as `Nat` (milliseconds); JavaScript exceptions as
`Except String`; the relational store as a `List` of records.  The token
service (`src/lib/auth.ts`, not part of the sources) is modelled from the
spec where needed and otherwise passed in as a parameter.
-/

namespace Zupp

/-- A user row of the `users` table (`db/schema/users.ts`). -/
structure User where
  id : String
  email : String
  password : String
  firstName : Option String
  lastName : Option String
  phone : Option String
  role : String
  isActive : Bool
  emailVerified : Bool
  lastLoginAt : Option Nat
  createdAt : Nat
  updatedAt : Nat
  deriving Repr, DecidableEq

/-- An API-key row of the `api_keys` table (`db/schema/apiKeys.ts`). -/
structure ApiKey where
  id : String
  name : String
  key : String
  description : Option String
  createdBy : String
  isActive : Bool
  lastUsedAt : Option Nat
  expiresAt : Option Nat
  createdAt : Nat
  updatedAt : Nat
  deriving Repr, DecidableEq

/-- The claim set of a verified session token (`JwtPayload`): subject id,
email and role, as produced by `AuthService.verifyToken`. -/
structure JwtPayload where
  userId : String
  email : String
  role : String
  deriving Repr, DecidableEq

/-- The identity object the session auth gate attaches to the request
context (`c.set('user', ...)` in `middleware/auth.ts`). -/
structure CtxUser where
  id : String
  email : String
  role : String
  deriving Repr, DecidableEq

/-- Outcome of a gate middleware: either a terminal JSON rejection
`c.json({error}, status)`, or control passes to `next` with a value
attached to the request context. -/
inductive GateResult (α : Type) where
  | rejected (status : Nat) (error : String)
  | proceed (attached : α)
  deriving Repr, DecidableEq

/-- Modelled from the spec: `AuthService.extractTokenFromHeader`
(`src/lib/auth.ts` is not among the sources).  Per spec §4.2 it accepts a
header value of the exact form `Bearer <token>` (case-sensitive scheme,
single space) and returns none if the header is absent or does not match
the prefix. -/
def extractTokenFromHeader (header : Option String) : Option String :=
  match header with
  | none => none
  | some h =>
    match h.data with
    | 'B' :: 'e' :: 'a' :: 'r' :: 'e' :: 'r' :: ' ' :: rest =>
      some (String.mk rest)
    | _ => none

/-- JavaScript truthiness of an optional string: `undefined` and the empty
string are falsy. -/
def truthyStr (s : Option String) : Option String :=
  match s with
  | none => none
  | some v => if v = "" then none else some v

/-- The `try` block of `authMiddleware` (`middleware/auth.ts`, lines
16–44): extract the bearer token and reject a falsy one (`if (!token)`,
line 20 — `undefined` and the empty string alike), verify it
(`verifyToken` throws on an invalid or expired token, modelled as
`Except`), look the subject up by the claimed id (`db.select ... limit
1`, modelled as a throwing query returning the matching rows), reject
unless a row was found with `isActive`, then attach `{id, email, role}`
from the payload. -/
def authMiddlewareTry
    (verifyToken : String → Except String JwtPayload)
    (selectUserById : String → Except String (List User))
    (authHeader : Option String) : Except String (GateResult CtxUser) :=
  match truthyStr (extractTokenFromHeader authHeader) with
  | none => .ok (.rejected 401 "Authorization token required")
  | some token =>
    match verifyToken token with
    | .error e => .error e
    | .ok payload =>
      match selectUserById payload.userId with
      | .error e => .error e
      | .ok [] => .ok (.rejected 401 "User not found or inactive")
      | .ok (u :: _) =>
        if !u.isActive then
          .ok (.rejected 401 "User not found or inactive")
        else
          .ok (.proceed
            { id := payload.userId, email := payload.email, role := payload.role })

/-- `authMiddleware` (`middleware/auth.ts`, lines 15–48): the `try` block
above with the `catch` clause turning any thrown error into the 401
response `{error: 'Invalid or expired token'}`. -/
def authMiddleware
    (verifyToken : String → Except String JwtPayload)
    (selectUserById : String → Except String (List User))
    (authHeader : Option String) : GateResult CtxUser :=
  match authMiddlewareTry verifyToken selectUserById authHeader with
  | .ok r => r
  | .error _ => .rejected 401 "Invalid or expired token"

/-- The pure store query used by the gate: `select().from(users)
.where(eq(users.id, id)).limit(1)` over an in-memory table. -/
def usersSelectById (store : List User) (i : String) :
    Except String (List User) :=
  .ok ((store.filter (fun u => u.id = i)).take 1)

/-- `requireRole` (`middleware/auth.ts`, lines 50–64): reads the identity
attached by `authMiddleware`; absent → 401; role not in the allow-list →
403; otherwise pass through unchanged. -/
def requireRole (roles : List String) (user : Option CtxUser) :
    GateResult Unit :=
  match user with
  | none => .rejected 401 "Authentication required"
  | some u =>
    if !(roles.contains u.role) then
      .rejected 403 "Insufficient permissions"
    else
      .proceed ()

/-- `requireAdmin = requireRole(['admin'])` (`middleware/auth.ts`, line 66). -/
def requireAdmin : Option CtxUser → GateResult Unit :=
  requireRole ["admin"]

/-- `requireStaff = requireRole(['admin', 'staff'])` (`middleware/auth.ts`,
line 67). -/
def requireStaff : Option CtxUser → GateResult Unit :=
  requireRole ["admin", "staff"]

/-- The JavaScript expression
`c.req.header('X-API-Key') || c.req.query('api_key')`
(`middleware/apiKey.ts`, line 8): the header value unless it is falsy, in
which case the query value. -/
def presentedApiKey (header query : Option String) : Option String :=
  match truthyStr header with
  | some h => some h
  | none => query

/-- `apiKeyMiddleware` (`middleware/apiKey.ts`): read the presented key
from the header or the query string; falsy → 401 Missing; look it up with
`where(key = k AND isActive = true)`; no row → 401 Invalid; expired
(`expiresAt` set and `new Date() > expiresAt`) → 401 Expired; otherwise
update `lastUsedAt` and attach the (pre-update) record.  A thrown store
error is caught and answered with 500 `{error: 'Authentication failed'}`.
The store queries may throw; `selectKey` models the filtered select and
`updateLastUsed` the update, both over the given table. -/
def apiKeyMiddlewareTry (store : List ApiKey) (now : Nat)
    (selectKey : List ApiKey → String → Except String (List ApiKey))
    (updateLastUsed : List ApiKey → String → Nat →
      Except String (List ApiKey))
    (header query : Option String) :
    Except String (GateResult (ApiKey × List ApiKey)) :=
  match truthyStr (presentedApiKey header query) with
  | none => .ok (.rejected 401 "API key is required")
  | some k =>
    match selectKey store k with
    | .error e => .error e
    | .ok [] => .ok (.rejected 401 "Invalid API key")
    | .ok (keyRecord :: _) =>
      match keyRecord.expiresAt with
      | some exp =>
        if now > exp then
          .ok (.rejected 401 "API key has expired")
        else
          match updateLastUsed store keyRecord.id now with
          | .error e => .error e
          | .ok store' => .ok (.proceed (keyRecord, store'))
      | none =>
        match updateLastUsed store keyRecord.id now with
        | .error e => .error e
        | .ok store' => .ok (.proceed (keyRecord, store'))

/-- `apiKeyMiddleware` with its `catch` clause (`middleware/apiKey.ts`,
lines 44–47): any thrown error becomes 500 `{error: 'Authentication
failed'}`. -/
def apiKeyMiddleware (store : List ApiKey) (now : Nat)
    (selectKey : List ApiKey → String → Except String (List ApiKey))
    (updateLastUsed : List ApiKey → String → Nat →
      Except String (List ApiKey))
    (header query : Option String) : GateResult (ApiKey × List ApiKey) :=
  match apiKeyMiddlewareTry store now selectKey updateLastUsed
      header query with
  | .ok r => r
  | .error _ => .rejected 500 "Authentication failed"

/-- The pure select used by the key gate on a healthy store:
`select().from(apiKeys).where(and(eq(apiKeys.key, k),
eq(apiKeys.isActive, true)))`. -/
def apiKeysSelectActiveByKey (store : List ApiKey) (k : String) :
    Except String (List ApiKey) :=
  .ok (store.filter (fun r => r.key = k && r.isActive))

/-- The pure update used by the key gate on a healthy store:
`update(apiKeys).set({lastUsedAt: now}).where(eq(apiKeys.id, i))`. -/
def apiKeysUpdateLastUsed (store : List ApiKey) (i : String) (now : Nat) :
    Except String (List ApiKey) :=
  .ok (store.map (fun r =>
    if r.id = i then { r with lastUsedAt := some now } else r))

/-- The spec's usability invariant for a key record at time `now`:
`active == true AND (expiresAt is unset OR expiresAt > now)`
(spec §3, the claim's strict reading). -/
def keyUsableSpec (r : ApiKey) (now : Nat) : Prop :=
  r.isActive = true ∧ (r.expiresAt = none ∨ ∃ e, r.expiresAt = some e ∧ e > now)

/-- What the code actually enforces: `active == true` and `expiresAt`
unset or not strictly in the past (`¬ (now > expiresAt)`). -/
def keyUsableCode (r : ApiKey) (now : Nat) : Prop :=
  r.isActive = true ∧ (r.expiresAt = none ∨ ∃ e, r.expiresAt = some e ∧ e ≥ now)

/-- `generateApiKey` (`routes/apiKeys.ts`, lines 27–31): the fixed prefix
`zk_` followed by the lowercase hex encoding of `randomBytes(32)`.  The
32 random bytes drawn from the CSPRNG are the only input. -/
def hexDigitChar (n : Nat) : Char :=
  if n < 10 then Char.ofNat (48 + n) else Char.ofNat (87 + n)

/-- Lowercase hex encoding of a byte list, two characters per byte, as
`Buffer.toString('hex')` produces. -/
def hexEncodeBytes : List Nat → List Char
  | [] => []
  | b :: bs => hexDigitChar (b / 16) :: hexDigitChar (b % 16) :: hexEncodeBytes bs

def generateApiKey (randomBytes : List Nat) : String :=
  "zk_" ++ String.mk (hexEncodeBytes randomBytes)

/-- Numeric value of a lowercase hex digit character. -/
def hexDigitVal (c : Char) : Nat :=
  if c.toNat ≥ 97 then c.toNat - 87 else c.toNat - 48

/-- Decoder inverse to `hexEncodeBytes`, used to show the random component
is preserved injectively. -/
def hexDecodeChars : List Char → List Nat
  | c1 :: c2 :: cs => (16 * hexDigitVal c1 + hexDigitVal c2) :: hexDecodeChars cs
  | _ => []

/-- A lowercase hexadecimal character: `0`–`9` or `a`–`f`. -/
def isLowerHexChar (c : Char) : Bool :=
  decide (('0' ≤ c ∧ c ≤ '9') ∨ ('a' ≤ c ∧ c ≤ 'f'))

/-- The regenerate route (`routes/apiKeys.ts`, lines 192–214):
`update(apiKeys).set({key: generateApiKey(), updatedAt: new Date()})
.where(eq(apiKeys.id, id)).returning()`.  Returns the updated table and
the first returned row (none when no row matched → 404 in the route). -/
def regenerateApiKey (store : List ApiKey) (i : String)
    (freshKey : String) (now : Nat) : List ApiKey × Option ApiKey :=
  let upd := fun r =>
    if r.id = i then { r with key := freshKey, updatedAt := now } else r
  (store.map upd, (store.filter (fun r => r.id = i)).map upd |>.head?)

/-- A JSON value, for response bodies and request bodies. -/
inductive JVal where
  | str (s : String)
  | nat (n : Nat)
  | bool (b : Bool)
  | null
  | obj (fields : List (String × JVal))

/-- An HTTP JSON response: `c.json(body, status)`. -/
structure Response where
  status : Nat
  body : JVal

/-- First field with the given key of a JSON object body. -/
def findField (v : JVal) (k : String) : Option JVal :=
  match v with
  | .obj fields => (fields.find? (fun p => p.1 = k)).map (·.2)
  | _ => none

/-- JSON serialization of a full `users` row, every column included
(what `c.json` would emit for the raw drizzle row). -/
def userFields (u : User) : List (String × JVal) :=
  [("id", .str u.id),
   ("email", .str u.email),
   ("password", .str u.password),
   ("firstName", match u.firstName with | some s => .str s | none => .null),
   ("lastName", match u.lastName with | some s => .str s | none => .null),
   ("phone", match u.phone with | some s => .str s | none => .null),
   ("role", .str u.role),
   ("isActive", .bool u.isActive),
   ("emailVerified", .bool u.emailVerified),
   ("lastLoginAt", match u.lastLoginAt with | some n => .nat n | none => .null),
   ("createdAt", .nat u.createdAt),
   ("updatedAt", .nat u.updatedAt)]

/-- The rest-destructuring `const { password: _, ...userWithoutPassword }
= user` used by register, login and `/me`: every field except
`password`. -/
def userWithoutPassword (u : User) : List (String × JVal) :=
  (userFields u).filter (fun p => ¬ (p.1 = "password"))

/-- The parsed payload of `registerSchema` (`db/schema/users.ts`):
`insertUserSchema.pick({email, password, firstName, lastName, phone})`.
By construction it has no role field. -/
structure RegisterInput where
  email : String
  password : String
  firstName : Option String
  lastName : Option String
  phone : Option String
  deriving Repr, DecidableEq

/-- A `z.string().min(1).optional()` field: absent is accepted, a string
of length ≥ 1 is accepted, anything else fails. -/
def parseOptMin1 (v : Option JVal) : Option (Option String) :=
  match v with
  | none => some none
  | some (.str s) => if 1 ≤ s.length then some (some s) else none
  | some _ => none

/-- A `z.string().optional()` field. -/
def parseOptStr (v : Option JVal) : Option (Option String) :=
  match v with
  | none => some none
  | some (.str s) => some (some s)
  | some _ => none

/-- `registerSchema.parse` on a JSON request body (`zValidator('json',
registerSchema)`): reads exactly the five picked keys, validates them
(`email()` modelled by the parameter `validEmail`, since zod's email
grammar is external; `password: min(8)`; names `min(1).optional()`;
`phone` optional), and strips every other key — in particular a `role`
key in the body is never read. -/
def parseRegister (validEmail : String → Bool)
    (body : List (String × JVal)) : Option RegisterInput := do
  let emailV ← (body.find? (fun p => p.1 = "email")).map (·.2)
  let passwordV ← (body.find? (fun p => p.1 = "password")).map (·.2)
  match emailV, passwordV with
  | .str e, .str pw =>
    if validEmail e ∧ 8 ≤ pw.length then do
      let fn ← parseOptMin1 ((body.find? (fun p => p.1 = "firstName")).map (·.2))
      let ln ← parseOptMin1 ((body.find? (fun p => p.1 = "lastName")).map (·.2))
      let ph ← parseOptStr ((body.find? (fun p => p.1 = "phone")).map (·.2))
      some ⟨e, pw, fn, ln, ph⟩
    else none
  | _, _ => none

/-- The row the register handler inserts for a parsed input: the five
picked fields, the hashed password, hard-coded `role: 'customer'`, and
the database defaults (`isActive: true`, `emailVerified: false`). -/
def registeredUser (hash : String → String) (input : RegisterInput)
    (freshId : String) (now : Nat) : User :=
  { id := freshId, email := input.email, password := hash input.password,
    firstName := input.firstName, lastName := input.lastName,
    phone := input.phone, role := "customer", isActive := true,
    emailVerified := false, lastLoginAt := none,
    createdAt := now, updatedAt := now }

/-- The `POST /register` handler (`routes/products.ts`) after schema
validation: reject 400 if a user with the email exists; hash the
password; insert `{email, password: hash, firstName, lastName, phone,
role: 'customer'}` (the database fills `id`, `isActive: true`,
`emailVerified: false`, timestamps); issue a token for the new row;
answer 201 with the row minus its password field. -/
def registerHandler (hash : String → String) (genToken : User → String)
    (store : List User) (input : RegisterInput) (freshId : String)
    (now : Nat) : Response × List User :=
  let existingUser := (store.filter (fun u => u.email = input.email)).take 1
  if existingUser.length > 0 then
    ({ status := 400,
       body := .obj [("error", .str "User already exists with this email")] },
     store)
  else
    let hashedPassword := hash input.password
    let user : User :=
      { id := freshId, email := input.email, password := hashedPassword,
        firstName := input.firstName, lastName := input.lastName,
        phone := input.phone, role := "customer", isActive := true,
        emailVerified := false, lastLoginAt := none,
        createdAt := now, updatedAt := now }
    let token := genToken user
    ({ status := 201,
       body := .obj [("message", .str "User registered successfully"),
                     ("user", .obj (userWithoutPassword user)),
                     ("token", .str token)] },
     store ++ [user])

/-- The `POST /login` handler (`routes/products.ts`): find the user by
email (401 `Invalid credentials` if none), reject a deactivated account
(401), verify the password (`comparePassword`, passed in), update
`lastLoginAt`, and answer 200 with the user minus its password field and
a fresh token. -/
def loginHandler (comparePassword : String → String → Bool)
    (genToken : User → String) (store : List User)
    (email password : String) (now : Nat) : Response × List User :=
  match (store.filter (fun u => u.email = email)).take 1 with
  | [] =>
    ({ status := 401, body := .obj [("error", .str "Invalid credentials")] },
     store)
  | user :: _ =>
    if !user.isActive then
      ({ status := 401, body := .obj [("error", .str "Account is deactivated")] },
       store)
    else if !(comparePassword password user.password) then
      ({ status := 401, body := .obj [("error", .str "Invalid credentials")] },
       store)
    else
      let store' := store.map (fun u =>
        if u.id = user.id then { u with lastLoginAt := some now } else u)
      let token := genToken user
      ({ status := 200,
         body := .obj [("message", .str "Login successful"),
                       ("user", .obj (userWithoutPassword user)),
                       ("token", .str token)] },
       store')

/-- The `GET /me` handler (`routes/products.ts`), run after
`authMiddleware`: look the context user's id up (404 if gone) and answer
200 with the row minus its password field. -/
def meHandler (store : List User) (ctxUserId : String) : Response :=
  match (store.filter (fun u => u.id = ctxUserId)).take 1 with
  | [] => { status := 404, body := .obj [("error", .str "User not found")] }
  | user :: _ =>
    { status := 200,
      body := .obj [("user", .obj (userWithoutPassword user))] }

/-! ## Theorems -/

/-- A truthy optional string is the underlying value itself. -/
theorem truthyStr_eq_some {s : Option String} {v : String}
    (h : truthyStr s = some v) : s = some v := by
  cases s with
  | none => simp [truthyStr] at h
  | some w =>
    by_cases hw : w = ""
    · simp [truthyStr, hw] at h
    · simp [truthyStr, hw] at h
      rw [h]

/-- C1: whenever the session auth gate succeeds, the identity attached to
the request context is exactly `{id, email, role}` from the verified
token's claims — the role and email are not re-read from the store, so
even a subject whose stored role differs still gets the claims role
attached. -/
theorem authGate_attaches_claims_identity
    (verifyToken : String → Except String JwtPayload)
    (selectUserById : String → Except String (List User))
    (authHeader : Option String) (u : CtxUser)
    (h : authMiddleware verifyToken selectUserById authHeader = .proceed u) :
    ∃ token payload,
      extractTokenFromHeader authHeader = some token ∧
      verifyToken token = .ok payload ∧
      u = { id := payload.userId, email := payload.email,
            role := payload.role } := by
  cases hxt : truthyStr (extractTokenFromHeader authHeader) with
  | none => simp [authMiddleware, authMiddlewareTry, hxt] at h
  | some token =>
    cases hv : verifyToken token with
    | error e => simp [authMiddleware, authMiddlewareTry, hxt, hv] at h
    | ok payload =>
      cases hs : selectUserById payload.userId with
      | error e => simp [authMiddleware, authMiddlewareTry, hxt, hv, hs] at h
      | ok rows =>
        rcases rows with _ | ⟨u0, rest⟩
        · simp [authMiddleware, authMiddlewareTry, hxt, hv, hs] at h
        · by_cases ha : u0.isActive
          · simp [authMiddleware, authMiddlewareTry, hxt, hv, hs, ha] at h
            exact ⟨token, payload, truthyStr_eq_some hxt, hv,
              by cases u; simp_all⟩
          · simp [authMiddleware, authMiddlewareTry, hxt, hv, hs, ha] at h

/-- Witness for C1: a token whose claims carry role `admin` for a subject
stored with role `staff`; the attached identity carries `admin`. -/
theorem authGate_attaches_claims_identity_witness :
    ∃ token payload,
      extractTokenFromHeader (some "Bearer tok1") = some token ∧
      (fun _ : String =>
        (Except.ok ⟨"u1", "a@x.com", "admin"⟩ : Except String JwtPayload))
          token = .ok payload ∧
      ({ id := "u1", email := "a@x.com", role := "admin" } : CtxUser) =
        { id := payload.userId, email := payload.email,
          role := payload.role } :=
  authGate_attaches_claims_identity
    (fun _ => (Except.ok ⟨"u1", "a@x.com", "admin"⟩ : Except String JwtPayload))
    (usersSelectById
      [{ id := "u1", email := "a@x.com", password := "h", firstName := none,
         lastName := none, phone := none, role := "staff", isActive := true,
         emailVerified := false, lastLoginAt := none, createdAt := 0,
         updatedAt := 0 }])
    (some "Bearer tok1")
    { id := "u1", email := "a@x.com", role := "admin" }
    (by decide)

/-- C3: the session auth gate performs its checks in order — bearer-token
extraction (a falsy token, absent or empty, is rejected as
`if (!token)` does), verification, subject lookup, active flag —
rejecting with a 401 JSON error at the first failing check regardless of
the later components, and attaches the claims identity only when all
four succeed; conversely, a success implies every check passed. -/
theorem authGate_checks_in_order
    (verifyToken : String → Except String JwtPayload)
    (selectUserById : String → Except String (List User))
    (authHeader : Option String) :
    (truthyStr (extractTokenFromHeader authHeader) = none →
      authMiddleware verifyToken selectUserById authHeader =
        .rejected 401 "Authorization token required") ∧
    (∀ token e, truthyStr (extractTokenFromHeader authHeader) = some token →
      verifyToken token = .error e →
      authMiddleware verifyToken selectUserById authHeader =
        .rejected 401 "Invalid or expired token") ∧
    (∀ token payload,
      truthyStr (extractTokenFromHeader authHeader) = some token →
      verifyToken token = .ok payload →
      selectUserById payload.userId = .ok [] →
      authMiddleware verifyToken selectUserById authHeader =
        .rejected 401 "User not found or inactive") ∧
    (∀ token payload u rest,
      truthyStr (extractTokenFromHeader authHeader) = some token →
      verifyToken token = .ok payload →
      selectUserById payload.userId = .ok (u :: rest) →
      u.isActive = false →
      authMiddleware verifyToken selectUserById authHeader =
        .rejected 401 "User not found or inactive") ∧
    (∀ token payload u rest,
      truthyStr (extractTokenFromHeader authHeader) = some token →
      verifyToken token = .ok payload →
      selectUserById payload.userId = .ok (u :: rest) →
      u.isActive = true →
      authMiddleware verifyToken selectUserById authHeader =
        .proceed { id := payload.userId, email := payload.email,
                   role := payload.role }) ∧
    (∀ u, authMiddleware verifyToken selectUserById authHeader = .proceed u →
      ∃ token payload usr rest,
        truthyStr (extractTokenFromHeader authHeader) = some token ∧
        verifyToken token = .ok payload ∧
        selectUserById payload.userId = .ok (usr :: rest) ∧
        usr.isActive = true) := by
  refine ⟨?_, ?_, ?_, ?_, ?_, ?_⟩
  · intro hx
    simp [authMiddleware, authMiddlewareTry, hx]
  · intro token e hx hv
    simp [authMiddleware, authMiddlewareTry, hx, hv]
  · intro token payload hx hv hs
    simp [authMiddleware, authMiddlewareTry, hx, hv, hs]
  · intro token payload u rest hx hv hs ha
    simp [authMiddleware, authMiddlewareTry, hx, hv, hs, ha]
  · intro token payload u rest hx hv hs ha
    simp [authMiddleware, authMiddlewareTry, hx, hv, hs, ha]
  · intro u h
    cases hx : truthyStr (extractTokenFromHeader authHeader) with
    | none => simp [authMiddleware, authMiddlewareTry, hx] at h
    | some token =>
      cases hv : verifyToken token with
      | error e => simp [authMiddleware, authMiddlewareTry, hx, hv] at h
      | ok payload =>
        cases hs : selectUserById payload.userId with
        | error e => simp [authMiddleware, authMiddlewareTry, hx, hv, hs] at h
        | ok rows =>
          rcases rows with _ | ⟨u0, rest⟩
          · simp [authMiddleware, authMiddlewareTry, hx, hv, hs] at h
          · by_cases ha : u0.isActive
            · exact ⟨token, payload, u0, rest, rfl, hv, hs, ha⟩
            · simp [authMiddleware, authMiddlewareTry, hx, hv, hs, ha] at h

/-- Witness for C3: a still-valid token for a subject stored with
`isActive = false` is rejected with 401. -/
theorem authGate_checks_in_order_witness :
    authMiddleware
      (fun _ : String =>
        (Except.ok ⟨"u2", "b@x.com", "customer"⟩ : Except String JwtPayload))
      (usersSelectById
        [{ id := "u2", email := "b@x.com", password := "h", firstName := none,
           lastName := none, phone := none, role := "customer",
           isActive := false, emailVerified := false, lastLoginAt := none,
           createdAt := 0, updatedAt := 0 }])
      (some "Bearer tok2") =
      .rejected 401 "User not found or inactive" :=
  (authGate_checks_in_order _ _ _).2.2.2.1 "tok2"
    ⟨"u2", "b@x.com", "customer"⟩
    { id := "u2", email := "b@x.com", password := "h", firstName := none,
      lastName := none, phone := none, role := "customer", isActive := false,
      emailVerified := false, lastLoginAt := none, createdAt := 0,
      updatedAt := 0 }
    [] (by decide) rfl rfl rfl

/-- C5: the role gate rejects a request without an attached identity with
401, rejects an attached identity whose role is outside the allow-list
with 403, and otherwise passes through; the presets are
`requireAdmin = requireRole(['admin'])` and
`requireStaff = requireRole(['admin','staff'])`, so `requireAdmin`
rejects a staff identity with 403 and accepts an admin identity. -/
theorem roleGate_spec (roles : List String) (user : Option CtxUser) :
    (user = none →
      requireRole roles user = .rejected 401 "Authentication required") ∧
    (∀ u, user = some u → u.role ∉ roles →
      requireRole roles user = .rejected 403 "Insufficient permissions") ∧
    (∀ u, user = some u → u.role ∈ roles →
      requireRole roles user = .proceed ()) ∧
    (∀ v, requireAdmin v = requireRole ["admin"] v) ∧
    (∀ v, requireStaff v = requireRole ["admin", "staff"] v) ∧
    (∀ u : CtxUser, u.role = "staff" →
      requireAdmin (some u) = .rejected 403 "Insufficient permissions") ∧
    (∀ u : CtxUser, u.role = "admin" →
      requireAdmin (some u) = .proceed ()) := by
  refine ⟨?_, ?_, ?_, fun _ => rfl, fun _ => rfl, ?_, ?_⟩
  · intro h; simp [requireRole, h]
  · intro u hu hnm
    subst hu
    simp [requireRole, hnm]
  · intro u hu hm
    subst hu
    simp [requireRole, hm]
  · intro u hrole
    simp [requireAdmin, requireRole, hrole]
  · intro u hrole
    simp [requireAdmin, requireRole, hrole]

/-- Witness for C5: a valid staff identity is rejected by the admin-only
preset with 403. -/
theorem roleGate_spec_witness :
    requireAdmin (some { id := "u3", email := "c@x.com", role := "staff" }) =
      .rejected 403 "Insufficient permissions" :=
  (roleGate_spec ["admin"]
      (some { id := "u3", email := "c@x.com", role := "staff" })).2.2.2.2.2.1
    { id := "u3", email := "c@x.com", role := "staff" } rfl

/-- C6: the api-key gate reads the presented key from the `X-API-Key`
header, falling back to the `api_key` query parameter; a non-empty header
wins over any query value (the gate behaves exactly as if the query were
absent), and when neither is supplied the request is rejected 401
`API key is required` whatever the store and its query functions are —
no store access can influence the outcome. -/
theorem apiKeyGate_presented_key (header query : Option String) :
    (∀ h, header = some h → h ≠ "" → presentedApiKey header query = some h) ∧
    (∀ h, header = some h → h ≠ "" →
      ∀ store now selectKey updateLastUsed,
        apiKeyMiddleware store now selectKey updateLastUsed header query =
          apiKeyMiddleware store now selectKey updateLastUsed (some h) none) ∧
    (header = none → query = none →
      ∀ store now selectKey updateLastUsed,
        apiKeyMiddleware store now selectKey updateLastUsed header query =
          .rejected 401 "API key is required") := by
  refine ⟨?_, ?_, ?_⟩
  · intro h hh hne
    subst hh
    simp [presentedApiKey, truthyStr, hne]
  · intro h hh hne store now selectKey updateLastUsed
    subst hh
    simp [apiKeyMiddleware, apiKeyMiddlewareTry, presentedApiKey, truthyStr,
      hne]
  · intro hh hq store now selectKey updateLastUsed
    subst hh; subst hq
    simp [apiKeyMiddleware, apiKeyMiddlewareTry, presentedApiKey, truthyStr]

/-- Witness for C6: with both a non-empty header and a query value
supplied, the gate's outcome on a concrete store coincides with the
header-only outcome. -/
theorem apiKeyGate_presented_key_witness :
    apiKeyMiddleware [] 7 apiKeysSelectActiveByKey apiKeysUpdateLastUsed
        (some "hk") (some "qk") =
      apiKeyMiddleware [] 7 apiKeysSelectActiveByKey apiKeysUpdateLastUsed
        (some "hk") none :=
  (apiKeyGate_presented_key (some "hk") (some "qk")).2.1 "hk" rfl
    (by decide) [] 7 apiKeysSelectActiveByKey apiKeysUpdateLastUsed

/-- C2 counterexample: at the instant `now = expiresAt` (here 1000) the
gate accepts a key with `isActive = true` even though the claimed
condition `expiresAt > now` is false — the code's check
`new Date() > expiresAt` only rejects a strictly past expiry. -/
theorem apiKeyGate_boundary_counterexample :
    (∃ p, apiKeyMiddleware
        [{ id := "k1", name := "n", key := "zk_abc", description := none,
           createdBy := "u1", isActive := true, lastUsedAt := none,
           expiresAt := some 1000, createdAt := 0, updatedAt := 0 }]
        1000 apiKeysSelectActiveByKey apiKeysUpdateLastUsed
        (some "zk_abc") none = .proceed p) ∧
    ¬ keyUsableSpec
        { id := "k1", name := "n", key := "zk_abc", description := none,
          createdBy := "u1", isActive := true, lastUsedAt := none,
          expiresAt := some 1000, createdAt := 0, updatedAt := 0 } 1000 := by
  constructor
  · exact ⟨_, rfl⟩
  · intro h
    simp only [keyUsableSpec] at h
    rcases h with ⟨-, h | ⟨e, he, hgt⟩⟩
    · simp at h
    · simp at he
      omega

/-- C2 (amended): with a non-empty presented key and unique key values,
the api-key gate accepts exactly when the store holds a record with that
key value that is active and not past expiry (`expiresAt` unset or
`expiresAt ≥ now`); an active key with `expiresAt` strictly in the past
is rejected 401 `API key has expired`, and an inactive key is rejected
401 `Invalid API key` whatever its expiry. -/
theorem apiKeyGate_usable_iff (store : List ApiKey) (now : Nat) (k : String)
    (hk : ¬ (k = ""))
    (huniq : ∀ r1 ∈ store, ∀ r2 ∈ store, r1.key = r2.key → r1 = r2) :
    ((∃ p, apiKeyMiddleware store now apiKeysSelectActiveByKey
          apiKeysUpdateLastUsed (some k) none = .proceed p) ↔
        ∃ r ∈ store, r.key = k ∧ keyUsableCode r now) ∧
    (∀ r ∈ store, r.key = k → r.isActive = true →
      (∃ e, r.expiresAt = some e ∧ e < now) →
      apiKeyMiddleware store now apiKeysSelectActiveByKey
          apiKeysUpdateLastUsed (some k) none =
        .rejected 401 "API key has expired") ∧
    (∀ r ∈ store, r.key = k → r.isActive = false →
      apiKeyMiddleware store now apiKeysSelectActiveByKey
          apiKeysUpdateLastUsed (some k) none =
        .rejected 401 "Invalid API key") := by
  have hpres : truthyStr (presentedApiKey (some k) none) = some k := by
    simp [presentedApiKey, truthyStr, hk]
  cases hrows : store.filter (fun r => r.key = k && r.isActive) with
  | nil =>
    have hmw : apiKeyMiddleware store now apiKeysSelectActiveByKey
        apiKeysUpdateLastUsed (some k) none =
        .rejected 401 "Invalid API key" := by
      simp [apiKeyMiddleware, apiKeyMiddlewareTry, hpres,
        apiKeysSelectActiveByKey, hrows]
    refine ⟨⟨?_, ?_⟩, ?_, ?_⟩
    · rintro ⟨p, hp⟩
      rw [hmw] at hp
      simp at hp
    · rintro ⟨r, hr, hkey, hact, -⟩
      have : r ∈ store.filter (fun r => r.key = k && r.isActive) :=
        List.mem_filter.mpr ⟨hr, by simp [hkey, hact]⟩
      rw [hrows] at this
      simp at this
    · intro r hr hkey hact _
      have : r ∈ store.filter (fun r => r.key = k && r.isActive) :=
        List.mem_filter.mpr ⟨hr, by simp [hkey, hact]⟩
      rw [hrows] at this
      simp at this
    · intro r hr hkey hact
      exact hmw
  | cons r0 rest =>
    have hr0mem : r0 ∈ store.filter (fun r => r.key = k && r.isActive) := by
      rw [hrows]; exact List.mem_cons_self _ _
    obtain ⟨hr0s, hr0f⟩ := List.mem_filter.mp hr0mem
    have hr0key : r0.key = k := by
      have := hr0f
      simp at this
      exact this.1
    have hr0act : r0.isActive = true := by
      have := hr0f
      simp at this
      exact this.2
    have hother : ∀ r ∈ store, r.key = k → r = r0 := by
      intro r hr hkey
      exact huniq r hr r0 hr0s (by rw [hkey, hr0key])
    cases hexp : r0.expiresAt with
    | none =>
      have hmw : apiKeyMiddleware store now apiKeysSelectActiveByKey
          apiKeysUpdateLastUsed (some k) none =
          .proceed (r0, store.map (fun r =>
            if r.id = r0.id then { r with lastUsedAt := some now } else r)) := by
        simp [apiKeyMiddleware, apiKeyMiddlewareTry, hpres,
          apiKeysSelectActiveByKey, hrows, hexp, apiKeysUpdateLastUsed]
      refine ⟨⟨?_, ?_⟩, ?_, ?_⟩
      · intro _
        exact ⟨r0, hr0s, hr0key, hr0act, Or.inl hexp⟩
      · intro _
        exact ⟨_, hmw⟩
      · rintro r hr hkey hact ⟨e, he, -⟩
        have := hother r hr hkey
        subst this
        rw [hexp] at he
        simp at he
      · intro r hr hkey hact
        have := hother r hr hkey
        subst this
        rw [hact] at hr0act
        simp at hr0act
    | some e =>
      by_cases hlt : now > e
      · have hmw : apiKeyMiddleware store now apiKeysSelectActiveByKey
            apiKeysUpdateLastUsed (some k) none =
            .rejected 401 "API key has expired" := by
          simp [apiKeyMiddleware, apiKeyMiddlewareTry, hpres,
            apiKeysSelectActiveByKey, hrows, hexp, hlt]
        refine ⟨⟨?_, ?_⟩, ?_, ?_⟩
        · rintro ⟨p, hp⟩
          rw [hmw] at hp
          simp at hp
        · rintro ⟨r, hr, hkey, -, husable⟩
          have := hother r hr hkey
          subst this
          rcases husable with h | ⟨e', he', hge⟩
          · rw [hexp] at h; simp at h
          · rw [hexp] at he'
            have : e = e' := by simpa using he'
            omega
        · intro r hr hkey hact _
          exact hmw
        · intro r hr hkey hact
          have := hother r hr hkey
          subst this
          rw [hact] at hr0act
          simp at hr0act
      · have hmw : apiKeyMiddleware store now apiKeysSelectActiveByKey
            apiKeysUpdateLastUsed (some k) none =
            .proceed (r0, store.map (fun r =>
              if r.id = r0.id then { r with lastUsedAt := some now }
              else r)) := by
          simp [apiKeyMiddleware, apiKeyMiddlewareTry, hpres,
            apiKeysSelectActiveByKey, hrows, hexp, hlt, apiKeysUpdateLastUsed]
        refine ⟨⟨?_, ?_⟩, ?_, ?_⟩
        · intro _
          exact ⟨r0, hr0s, hr0key, hr0act, Or.inr ⟨e, hexp, by omega⟩⟩
        · intro _
          exact ⟨_, hmw⟩
        · rintro r hr hkey hact ⟨e', he', hlt'⟩
          have := hother r hr hkey
          subst this
          rw [hexp] at he'
          have : e = e' := by simpa using he'
          omega
        · intro r hr hkey hact
          have := hother r hr hkey
          subst this
          rw [hact] at hr0act
          simp at hr0act

/-- Witness for C2 (amended): an active key whose expiry (5) lies
strictly before `now = 10` is rejected 401 `API key has expired` even
though `isActive = true`. -/
theorem apiKeyGate_usable_iff_witness :
    apiKeyMiddleware
        [{ id := "k2", name := "n2", key := "zk_exp", description := none,
           createdBy := "u1", isActive := true, lastUsedAt := none,
           expiresAt := some 5, createdAt := 0, updatedAt := 0 }]
        10 apiKeysSelectActiveByKey apiKeysUpdateLastUsed
        (some "zk_exp") none =
      .rejected 401 "API key has expired" :=
  (apiKeyGate_usable_iff
      [{ id := "k2", name := "n2", key := "zk_exp", description := none,
         createdBy := "u1", isActive := true, lastUsedAt := none,
         expiresAt := some 5, createdAt := 0, updatedAt := 0 }]
      10 "zk_exp" (by decide) (by decide)).2.1
    { id := "k2", name := "n2", key := "zk_exp", description := none,
      createdBy := "u1", isActive := true, lastUsedAt := none,
      expiresAt := some 5, createdAt := 0, updatedAt := 0 }
    (by decide) rfl rfl ⟨5, rfl, by decide⟩

/-- C4 counterexample: a store failure inside the session auth gate (the
user lookup throws after a token verifies) is answered with status 401
and the message `Invalid or expired token` — not with status 500 as
claimed; no 500 response is possible on this input. -/
theorem authGate_store_failure_counterexample :
    (authMiddleware
        (fun _ : String =>
          (Except.ok ⟨"u1", "a@x.com", "admin"⟩ : Except String JwtPayload))
        (fun _ : String =>
          (Except.error "connection refused" : Except String (List User)))
        (some "Bearer tok3") = .rejected 401 "Invalid or expired token") ∧
    ¬ ∃ s, authMiddleware
        (fun _ : String =>
          (Except.ok ⟨"u1", "a@x.com", "admin"⟩ : Except String JwtPayload))
        (fun _ : String =>
          (Except.error "connection refused" : Except String (List User)))
        (some "Bearer tok3") = .rejected 500 s := by
  constructor
  · rfl
  · rintro ⟨s, hs⟩
    rw [show authMiddleware
        (fun _ : String =>
          (Except.ok ⟨"u1", "a@x.com", "admin"⟩ : Except String JwtPayload))
        (fun _ : String =>
          (Except.error "connection refused" : Except String (List User)))
        (some "Bearer tok3") = .rejected 401 "Invalid or expired token"
      from rfl] at hs
    simp at hs

/-- C4 (amended): a store failure during authentication is surfaced as a
fixed generic message that never depends on the thrown error — the
api-key gate answers 500 `Authentication failed`, while the session auth
gate's catch-all answers 401 `Invalid or expired token`; neither gate
leaks the internal error. -/
theorem gates_internal_failure_generic (e : String)
    (verifyToken : String → Except String JwtPayload)
    (authHeader : Option String) (token : String) (payload : JwtPayload)
    (hx : truthyStr (extractTokenFromHeader authHeader) = some token)
    (hv : verifyToken token = .ok payload)
    (storeA : List ApiKey) (now : Nat) (k : String) (hk : ¬ (k = ""))
    (updateLastUsed : List ApiKey → String → Nat →
      Except String (List ApiKey)) :
    authMiddleware verifyToken (fun _ => .error e) authHeader =
      .rejected 401 "Invalid or expired token" ∧
    apiKeyMiddleware storeA now (fun _ _ => .error e) updateLastUsed
        (some k) none = .rejected 500 "Authentication failed" := by
  constructor
  · simp [authMiddleware, authMiddlewareTry, hx, hv]
  · simp [apiKeyMiddleware, apiKeyMiddlewareTry, presentedApiKey,
      truthyStr, hk]

/-- Witness for C4 (amended): with a concrete throwing store, the session
gate answers 401 with the generic message and the api-key gate answers
500 with the generic message. -/
theorem gates_internal_failure_generic_witness :
    authMiddleware
        (fun _ : String =>
          (Except.ok ⟨"u1", "a@x.com", "admin"⟩ : Except String JwtPayload))
        (fun _ => .error "ECONNREFUSED") (some "Bearer tok4") =
      .rejected 401 "Invalid or expired token" ∧
    apiKeyMiddleware [] 3 (fun _ _ => .error "ECONNREFUSED")
        apiKeysUpdateLastUsed (some "zk_k") none =
      .rejected 500 "Authentication failed" :=
  gates_internal_failure_generic "ECONNREFUSED"
    (fun _ => (Except.ok ⟨"u1", "a@x.com", "admin"⟩ : Except String JwtPayload))
    (some "Bearer tok4") "tok4" ⟨"u1", "a@x.com", "admin"⟩
    (by decide) rfl [] 3 "zk_k" (by decide) apiKeysUpdateLastUsed

/-- C7: regenerating key `i` replaces the stored secret with the freshly
generated value and updates `updatedAt`, leaving `id`, `name`,
`description`, `createdBy`, `isActive`, `expiresAt`, `lastUsedAt` and
`createdAt` of the record unchanged and every other record untouched;
once the fresh value differs from the old one, the old value no longer
authenticates against the updated store. -/
theorem regenerate_frame (store : List ApiKey) (i freshKey : String)
    (now : Nat) (r : ApiKey) (hr : r ∈ store) (hid : r.id = i)
    (hiduniq : ∀ r1 ∈ store, ∀ r2 ∈ store, r1.id = r2.id → r1 = r2) :
    (∃ r', (regenerateApiKey store i freshKey now).2 = some r' ∧
      r'.key = freshKey ∧ r'.updatedAt = now ∧ r'.id = r.id ∧
      r'.name = r.name ∧ r'.description = r.description ∧
      r'.createdBy = r.createdBy ∧ r'.isActive = r.isActive ∧
      r'.expiresAt = r.expiresAt ∧ r'.lastUsedAt = r.lastUsedAt ∧
      r'.createdAt = r.createdAt) ∧
    (∀ y ∈ (regenerateApiKey store i freshKey now).1,
      y = { r with key := freshKey, updatedAt := now } ∨
      (y ∈ store ∧ y.id ≠ i)) ∧
    (∀ x ∈ store, x.id ≠ i →
      x ∈ (regenerateApiKey store i freshKey now).1) ∧
    (¬ (freshKey = r.key) → ¬ (r.key = "") →
      (∀ x ∈ store, x.key = r.key → x = r) →
      ∀ now2, apiKeyMiddleware (regenerateApiKey store i freshKey now).1
          now2 apiKeysSelectActiveByKey apiKeysUpdateLastUsed
          (some r.key) none = .rejected 401 "Invalid API key") := by
  refine ⟨?_, ?_, ?_, ?_⟩
  · cases hfil : store.filter (fun x => x.id = i) with
    | nil =>
      exfalso
      have : r ∈ store.filter (fun x => x.id = i) :=
        List.mem_filter.mpr ⟨hr, by simp [hid]⟩
      rw [hfil] at this
      simp at this
    | cons x0 xs =>
      have hx0 : x0 ∈ store.filter (fun x => x.id = i) := by
        rw [hfil]; exact List.mem_cons_self _ _
      obtain ⟨hx0s, hx0p⟩ := List.mem_filter.mp hx0
      have hx0id : x0.id = i := by simpa using hx0p
      have hx0r : x0 = r := hiduniq x0 hx0s r hr (by rw [hx0id, hid])
      subst hx0r
      refine ⟨{ x0 with key := freshKey, updatedAt := now }, ?_,
        rfl, rfl, rfl, rfl, rfl, rfl, rfl, rfl, rfl, rfl⟩
      simp [regenerateApiKey, hfil, hx0id]
  · intro y hy
    simp only [regenerateApiKey, List.mem_map] at hy
    obtain ⟨x, hx, hxy⟩ := hy
    by_cases hxi : x.id = i
    · left
      have : x = r := hiduniq x hx r hr (by rw [hxi, hid])
      subst this
      rw [← hxy]
      simp [hxi]
    · right
      rw [← hxy, if_neg hxi]
      exact ⟨hx, hxi⟩
  · intro x hx hxi
    simp only [regenerateApiKey, List.mem_map]
    refine ⟨x, hx, ?_⟩
    simp [hxi]
  · intro hfresh hkne hkeyuniq now2
    have hfil : (regenerateApiKey store i freshKey now).1.filter
        (fun x => x.key = r.key && x.isActive) = [] := by
      rw [List.filter_eq_nil_iff]
      intro y hy
      simp only [regenerateApiKey, List.mem_map] at hy
      obtain ⟨x, hx, hxy⟩ := hy
      by_cases hxi : x.id = i
      · have hxr : x = r := hiduniq x hx r hr (by rw [hxi, hid])
        subst hxr
        rw [← hxy]
        simp [hxi, hfresh]
      · have hxk : ¬ (x.key = r.key) := by
          intro hcontra
          have : x = r := hkeyuniq x hx hcontra
          rw [this, hid] at hxi
          exact hxi rfl
        rw [← hxy]
        simp [hxi, hxk]
    have hpres : truthyStr (presentedApiKey (some r.key) none) =
        some r.key := by
      simp [presentedApiKey, truthyStr, hkne]
    simp [apiKeyMiddleware, apiKeyMiddlewareTry, hpres,
      apiKeysSelectActiveByKey, hfil]

/-- Witness for C7: regenerating a concrete one-record store replaces the
secret and `updatedAt` only, and the old secret stops authenticating. -/
theorem regenerate_frame_witness :
    (∃ r', (regenerateApiKey
        [{ id := "k9", name := "svc", key := "zk_old", description := none,
           createdBy := "u1", isActive := true, lastUsedAt := some 2,
           expiresAt := some 99, createdAt := 1, updatedAt := 1 }]
        "k9" "zk_new" 42).2 = some r' ∧
      r'.key = "zk_new" ∧ r'.updatedAt = 42 ∧
      r'.id = "k9" ∧ r'.name = "svc" ∧ r'.description = none ∧
      r'.createdBy = "u1" ∧ r'.isActive = true ∧ r'.expiresAt = some 99 ∧
      r'.lastUsedAt = some 2 ∧ r'.createdAt = 1) ∧
    apiKeyMiddleware (regenerateApiKey
        [{ id := "k9", name := "svc", key := "zk_old", description := none,
           createdBy := "u1", isActive := true, lastUsedAt := some 2,
           expiresAt := some 99, createdAt := 1, updatedAt := 1 }]
        "k9" "zk_new" 42).1 50 apiKeysSelectActiveByKey
        apiKeysUpdateLastUsed (some "zk_old") none =
      .rejected 401 "Invalid API key" := by
  have h := regenerate_frame
    [{ id := "k9", name := "svc", key := "zk_old", description := none,
       createdBy := "u1", isActive := true, lastUsedAt := some 2,
       expiresAt := some 99, createdAt := 1, updatedAt := 1 }]
    "k9" "zk_new" 42
    { id := "k9", name := "svc", key := "zk_old", description := none,
      createdBy := "u1", isActive := true, lastUsedAt := some 2,
      expiresAt := some 99, createdAt := 1, updatedAt := 1 }
    (by decide) rfl (by decide)
  exact ⟨h.1, h.2.2.2 (by decide) (by decide) (by decide) 50⟩

/-- Evaluating the hex digit table: encoding then reading back a value
below 16 is the identity. -/
theorem hexDigitVal_hexDigitChar : ∀ n < 16, hexDigitVal (hexDigitChar n) = n := by
  decide

/-- Each byte contributes exactly two characters to the hex encoding. -/
theorem hexEncodeBytes_length (bs : List Nat) :
    (hexEncodeBytes bs).length = 2 * bs.length := by
  induction bs with
  | nil => rfl
  | cons b bs ih =>
    simp [hexEncodeBytes, ih]
    omega

/-- `hexDecodeChars` is a left inverse of `hexEncodeBytes` on byte
lists, so the encoding loses none of the random component. -/
theorem hexDecode_hexEncode (bs : List Nat) (hb : ∀ b ∈ bs, b < 256) :
    hexDecodeChars (hexEncodeBytes bs) = bs := by
  induction bs with
  | nil => rfl
  | cons b bs ih =>
    have hb0 : b < 256 := hb b (by simp)
    have h1 : b / 16 < 16 := by omega
    have h2 : b % 16 < 16 := by omega
    simp only [hexEncodeBytes, hexDecodeChars,
      hexDigitVal_hexDigitChar _ h1, hexDigitVal_hexDigitChar _ h2]
    refine List.cons_eq_cons.mpr ⟨by omega, ?_⟩
    exact ih (fun x hx => hb x (by simp [hx]))

/-- The hex digit table produces lowercase hex characters. -/
theorem isLowerHexChar_hexDigitChar : ∀ n < 16,
    isLowerHexChar (hexDigitChar n) = true := by
  decide

/-- C8: every generated API key is the fixed prefix `zk_` followed by the
lowercase hex encoding of the 32 random bytes — 67 characters in total
for every call, independent of any request data (the random bytes are the
function's only input) — and the encoding is injective on the 32-byte
random component, so all 256 bits of entropy are preserved. -/
theorem generateApiKey_spec (bytes : List Nat)
    (hlen : bytes.length = 32) (hb : ∀ b ∈ bytes, b < 256) :
    (generateApiKey bytes).length = 67 ∧
    (generateApiKey bytes).data.take 3 = ['z', 'k', '_'] ∧
    (generateApiKey bytes).data.drop 3 = hexEncodeBytes bytes ∧
    (∀ c ∈ (generateApiKey bytes).data.drop 3, isLowerHexChar c = true) ∧
    (∀ bytes2, bytes2.length = 32 → (∀ b ∈ bytes2, b < 256) →
      generateApiKey bytes = generateApiKey bytes2 → bytes = bytes2) := by
  have hdata : ∀ cs : List Char,
      ("zk_" ++ String.mk cs).data = 'z' :: 'k' :: '_' :: cs :=
    fun cs => rfl
  have hdrop : ∀ bs : List Nat,
      (generateApiKey bs).data.drop 3 = hexEncodeBytes bs := by
    intro bs
    show (("zk_" ++ String.mk (hexEncodeBytes bs)).data).drop 3 = _
    rw [hdata]
    rfl
  refine ⟨?_, ?_, hdrop bytes, ?_, ?_⟩
  · show (("zk_" ++ String.mk (hexEncodeBytes bytes)).data).length = 67
    rw [hdata, List.length_cons, List.length_cons, List.length_cons,
      hexEncodeBytes_length, hlen]
  · show (("zk_" ++ String.mk (hexEncodeBytes bytes)).data).take 3 = _
    rw [hdata]
    rfl
  · rw [hdrop bytes]
    intro c hc
    clear hlen hdata hdrop
    induction bytes with
    | nil => simp [hexEncodeBytes] at hc
    | cons b bs ih =>
      have hb0 : b < 256 := hb b (by simp)
      simp only [hexEncodeBytes, List.mem_cons] at hc
      rcases hc with hc | hc | hc
      · rw [hc]
        exact isLowerHexChar_hexDigitChar _ (by omega)
      · rw [hc]
        exact isLowerHexChar_hexDigitChar _ (by omega)
      · exact ih (fun x hx => hb x (by simp [hx])) hc
  · intro bytes2 hlen2 hb2 h
    have hecs : hexEncodeBytes bytes = hexEncodeBytes bytes2 := by
      rw [← hdrop bytes, ← hdrop bytes2, h]
    calc bytes = hexDecodeChars (hexEncodeBytes bytes) :=
          (hexDecode_hexEncode bytes hb).symm
      _ = hexDecodeChars (hexEncodeBytes bytes2) := by rw [hecs]
      _ = bytes2 := hexDecode_hexEncode bytes2 hb2

/-- Witness for C8: the all-zero draw of 32 random bytes yields a
67-character value of the required shape. -/
theorem generateApiKey_spec_witness :
    (generateApiKey (List.replicate 32 0)).length = 67 ∧
    (generateApiKey (List.replicate 32 0)).data.take 3 = ['z', 'k', '_'] ∧
    (generateApiKey (List.replicate 32 0)).data.drop 3 =
      hexEncodeBytes (List.replicate 32 0) ∧
    (∀ c ∈ (generateApiKey (List.replicate 32 0)).data.drop 3,
      isLowerHexChar c = true) ∧
    (∀ bytes2, bytes2.length = 32 → (∀ b ∈ bytes2, b < 256) →
      generateApiKey (List.replicate 32 0) = generateApiKey bytes2 →
      List.replicate 32 0 = bytes2) :=
  generateApiKey_spec (List.replicate 32 0) (by decide) (by decide)

/-- The keys of the serialized user after the rest-destructuring: every
column except `password`. -/
theorem userWithoutPassword_keys (u : User) :
    (userWithoutPassword u).map Prod.fst =
      ["id", "email", "firstName", "lastName", "phone", "role", "isActive",
       "emailVerified", "lastLoginAt", "createdAt", "updatedAt"] := rfl

/-- C9: every successful register (201), login (200) and `/me` (200)
response carries the user as the rest-destructured object
`userWithoutPassword`, whose key set omits `password` — the stored hash
never appears as a field of the returned user object. -/
theorem authResponses_omit_password
    (hash : String → String) (genToken : User → String)
    (comparePassword : String → String → Bool) (store : List User)
    (input : RegisterInput) (freshId : String) (now : Nat)
    (email password ctxUserId : String) :
    ((registerHandler hash genToken store input freshId now).1.status = 201 →
      ∃ u, findField
          (registerHandler hash genToken store input freshId now).1.body
          "user" = some (.obj (userWithoutPassword u)) ∧
        "password" ∉ (userWithoutPassword u).map Prod.fst) ∧
    ((loginHandler comparePassword genToken store email password now).1.status
        = 200 →
      ∃ u, findField
          (loginHandler comparePassword genToken store email password now).1.body
          "user" = some (.obj (userWithoutPassword u)) ∧
        "password" ∉ (userWithoutPassword u).map Prod.fst) ∧
    ((meHandler store ctxUserId).status = 200 →
      ∃ u, findField (meHandler store ctxUserId).body "user" =
          some (.obj (userWithoutPassword u)) ∧
        "password" ∉ (userWithoutPassword u).map Prod.fst) := by
  refine ⟨?_, ?_, ?_⟩
  · intro hst
    simp only [registerHandler] at hst
    split at hst
    · simp at hst
    · rename_i hcond
      refine ⟨registeredUser hash input freshId now, ?_, ?_⟩
      · simp only [registerHandler]
        rw [if_neg hcond]
        rfl
      · rw [userWithoutPassword_keys]
        decide
  · intro hst
    cases hli : (store.filter (fun u => u.email = email)).take 1 with
    | nil => simp [loginHandler, hli] at hst
    | cons user rest =>
      by_cases hact : user.isActive
      · by_cases hcp : comparePassword password user.password
        · refine ⟨user, ?_, ?_⟩
          · simp only [loginHandler]
            rw [hli]
            simp [hact, hcp]
            rfl
          · rw [userWithoutPassword_keys]
            decide
        · exfalso
          simp only [loginHandler] at hst
          rw [hli] at hst
          simp [hact, hcp] at hst
      · exfalso
        simp only [loginHandler] at hst
        rw [hli] at hst
        simp [hact] at hst
  · intro hst
    cases hme : (store.filter (fun u => u.id = ctxUserId)).take 1 with
    | nil => simp [meHandler, hme] at hst
    | cons user rest =>
      refine ⟨user, ?_, ?_⟩
      · simp only [meHandler]
        rw [hme]
        rfl
      · rw [userWithoutPassword_keys]
        decide

/-- Witness for C9: a concrete `/me` call returns the user object with no
password key. -/
theorem authResponses_omit_password_witness :
    ∃ u, findField (meHandler
        [{ id := "u7", email := "a@x.com", password := "hash7",
           firstName := some "A", lastName := none, phone := none,
           role := "customer", isActive := true, emailVerified := false,
           lastLoginAt := none, createdAt := 0, updatedAt := 0 }] "u7").body
        "user" = some (.obj (userWithoutPassword u)) ∧
      "password" ∉ (userWithoutPassword u).map Prod.fst :=
  (authResponses_omit_password (fun s => s) (fun _ => "t") (fun _ _ => true)
    [{ id := "u7", email := "a@x.com", password := "hash7",
       firstName := some "A", lastName := none, phone := none,
       role := "customer", isActive := true, emailVerified := false,
       lastLoginAt := none, createdAt := 0, updatedAt := 0 }]
    ⟨"a@x.com", "pw12345678", none, none, none⟩ "u8" 0
    "a@x.com" "pw12345678" "u7").2.2 rfl

/-- C10: registration can only create a `customer` identity: the schema
`registerSchema` strips a `role` key from the request body (parsing is
unchanged by such a key), and the insert hard-codes `role: 'customer'`,
so the row appended to the store by a successful register carries role
`customer` whatever the body contained. -/
theorem register_role_always_customer
    (validEmail : String → Bool) (hash : String → String)
    (genToken : User → String) (store : List User)
    (body : List (String × JVal)) (input : RegisterInput)
    (hparse : parseRegister validEmail body = some input)
    (freshId : String) (now : Nat)
    (hok : (registerHandler hash genToken store input freshId now).1.status
      = 201) :
    (∀ rv, parseRegister validEmail (("role", rv) :: body) =
      parseRegister validEmail body) ∧
    (∃ u : User,
      (registerHandler hash genToken store input freshId now).2 =
        store ++ [u] ∧
      u.role = "customer" ∧
      findField (registerHandler hash genToken store input freshId now).1.body
        "user" = some (.obj (userWithoutPassword u))) := by
  constructor
  · intro rv
    rfl
  · simp only [registerHandler] at hok
    split at hok
    · simp at hok
    · rename_i hcond
      refine ⟨registeredUser hash input freshId now, ?_, rfl, ?_⟩
      · simp only [registerHandler]
        rw [if_neg hcond]
        rfl
      · simp only [registerHandler]
        rw [if_neg hcond]
        rfl

/-- Witness for C10: a register body that smuggles `"role": "admin"`
still parses to the five picked fields and produces a stored row with
role `customer`. -/
theorem register_role_always_customer_witness :
    (∀ rv, parseRegister (fun _ => true)
        (("role", rv) ::
          [("email", JVal.str "a@x.com"),
           ("password", JVal.str "pw12345678"),
           ("role", JVal.str "admin")]) =
      parseRegister (fun _ => true)
        [("email", JVal.str "a@x.com"),
         ("password", JVal.str "pw12345678"),
         ("role", JVal.str "admin")]) ∧
    (∃ u : User,
      (registerHandler (fun s => s) (fun _ => "t") []
          ⟨"a@x.com", "pw12345678", none, none, none⟩ "u10" 5).2 =
        [] ++ [u] ∧
      u.role = "customer" ∧
      findField (registerHandler (fun s => s) (fun _ => "t") []
          ⟨"a@x.com", "pw12345678", none, none, none⟩ "u10" 5).1.body
        "user" = some (.obj (userWithoutPassword u))) :=
  register_role_always_customer (fun _ => true) (fun s => s) (fun _ => "t")
    []
    [("email", JVal.str "a@x.com"), ("password", JVal.str "pw12345678"),
     ("role", JVal.str "admin")]
    ⟨"a@x.com", "pw12345678", none, none, none⟩ rfl "u10" 5 rfl

end Zupp
